import Mathlib

/-!
Verification development for the GoPhishFree repository.

The Python training script `train_model.py` (unified feature schema,
calibration-table construction, JSON model export) and the documentation
generators `generate_framework_assets.py` / `generate_architecture_pdf.py`
are embedded shallowly below.  The browser-side rule engine
(`PostModelRuleEngine`) and risk classifier are not part of the repository
sources; where a claim concerns them they are modelled from the
specification text, and the corresponding definitions say so in their
doc comments.
-/

/-! ## Unified feature schema (train_model.py, lines 42-103) -/

/-- Group 1: URL/Email Lexical (25 features), from `URL_EMAIL_FEATURES` in
`train_model.py`. -/
def URL_EMAIL_FEATURES : List String :=
  ["NumDots", "SubdomainLevel", "PathLevel", "UrlLength", "NumDash",
   "NumDashInHostname", "AtSymbol", "TildeSymbol", "NumUnderscore",
   "NumPercent", "NumQueryComponents", "NumAmpersand", "NumHash",
   "NumNumericChars", "NoHttps", "IpAddress", "DomainInSubdomains",
   "DomainInPaths", "HttpsInHostname", "HostnameLength", "PathLength",
   "QueryLength", "DoubleSlashInPath", "NumSensitiveWords",
   "FrequentDomainNameMismatch"]

/-- Group 2: former custom rules promoted to model inputs (9 features),
from `CUSTOM_RULE_FEATURES` in `train_model.py`. -/
def CUSTOM_RULE_FEATURES : List String :=
  ["SuspiciousTLD", "ShortenerDomain", "Punycode",
   "LinkMismatchCount", "LinkMismatchRatio", "HeaderMismatch",
   "UrgencyScore", "CredentialRequestScore", "LinkCount"]

/-- Group 3: DNS features (5 features), from `DNS_FEATURES` in
`train_model.py`. -/
def DNS_FEATURES : List String :=
  ["DomainExists", "HasMXRecord", "MultipleIPs",
   "RandomStringDomain", "UnresolvedDomains"]

/-- Group 4: deep-scan page features (13 features), from
`DEEPSCAN_FEATURES` in `train_model.py`. -/
def DEEPSCAN_FEATURES : List String :=
  ["InsecureForms", "RelativeFormAction", "ExtFormAction",
   "AbnormalFormAction", "SubmitInfoToEmail",
   "PctExtHyperlinks", "PctExtResourceUrls", "ExtFavicon",
   "PctNullSelfRedirectHyperlinks",
   "IframeOrFrame", "MissingTitle", "ImagesOnlyInForm",
   "EmbeddedBrandName"]

/-- Group 5: BEC / linkless features (5 features), from `BEC_FEATURES` in
`train_model.py`. -/
def BEC_FEATURES : List String :=
  ["FinancialRequestScore", "AuthorityImpersonationScore",
   "PhoneCallbackPattern", "ReplyToMismatch", "IsLinkless"]

/-- Group 6: attachment features (5 features), from `ATTACHMENT_FEATURES`
in `train_model.py`. -/
def ATTACHMENT_FEATURES : List String :=
  ["HasAttachment", "AttachmentCount", "RiskyAttachmentExtension",
   "DoubleExtensionFlag", "AttachmentNameEntropy"]

/-- Group 7: context flags (2 features), from `CONTEXT_FLAGS` in
`train_model.py`. -/
def CONTEXT_FLAGS : List String :=
  ["dns_ran", "deep_scan_ran"]

/-- Full ordered feature list, from `UNIFIED_FEATURES` in
`train_model.py`: the concatenation of the seven groups, in order. -/
def UNIFIED_FEATURES : List String :=
  URL_EMAIL_FEATURES ++
  CUSTOM_RULE_FEATURES ++
  DNS_FEATURES ++
  DEEPSCAN_FEATURES ++
  BEC_FEATURES ++
  ATTACHMENT_FEATURES ++
  CONTEXT_FLAGS

/-! ## Claim theorems -/

/-- C3: the unified feature schema has exactly 64 named slots in exactly 7
groups concatenated in the fixed order
URL/email lexical (25) ++ promoted custom-rule signals (9) ++ DNS (5) ++
deep-scan page structure (13) ++ BEC/linkless (5) ++ attachment (5) ++
context flags (2); `UNIFIED_FEATURES` equals this concatenation and its
length is 64. -/
theorem unified_features_schema :
    UNIFIED_FEATURES =
      URL_EMAIL_FEATURES ++ CUSTOM_RULE_FEATURES ++ DNS_FEATURES ++
      DEEPSCAN_FEATURES ++ BEC_FEATURES ++ ATTACHMENT_FEATURES ++
      CONTEXT_FLAGS ∧
    URL_EMAIL_FEATURES.length = 25 ∧
    CUSTOM_RULE_FEATURES.length = 9 ∧
    DNS_FEATURES.length = 5 ∧
    DEEPSCAN_FEATURES.length = 13 ∧
    BEC_FEATURES.length = 5 ∧
    ATTACHMENT_FEATURES.length = 5 ∧
    CONTEXT_FLAGS.length = 2 ∧
    UNIFIED_FEATURES.length = 64 := by
  refine ⟨rfl, ?_, ?_, ?_, ?_, ?_, ?_, ?_, ?_⟩ <;> rfl

/-! ## Feature-importance dictionary (export_unified_json, lines 535-538) -/

/-- Assignment `m[k] = v` on a Python dict modelled as an association
list: if the key is present its value is replaced in place, otherwise the
pair is appended (Python dicts preserve insertion order). -/
def dictAssign (m : List (String × ℚ)) (k : String) (v : ℚ) :
    List (String × ℚ) :=
  if m.any (fun p => p.1 == k) then
    m.map (fun p => if p.1 == k then (p.1, v) else p)
  else m ++ [(k, v)]

/-- The dict comprehension building `avg_importances` in
`export_unified_json`:
`{name: rf.feature_importances_[i] for i, name in enumerate(feature_names)}`.
Iterates the names in order, assigning each name the importance at its
index. -/
def avg_importances (feature_importances : List ℚ)
    (feature_names : List String) : List (String × ℚ) :=
  (feature_names.zip feature_importances).foldl
    (fun m p => dictAssign m p.1 p.2) []

/-- When the key is absent from the accumulator, a dict assignment is a
plain append. -/
theorem dictAssign_of_not_mem (m : List (String × ℚ)) (k : String) (v : ℚ)
    (h : ∀ p ∈ m, p.1 ≠ k) : dictAssign m k v = m ++ [(k, v)] := by
  unfold dictAssign
  rw [if_neg]
  simp only [List.any_eq_true, beq_iff_eq, not_exists, not_and]
  intro p hp
  exact h p hp

/-- Folding dict assignments of pairwise-distinct fresh keys over an
accumulator that contains none of them appends one entry per key. -/
theorem foldl_dictAssign_keys :
    ∀ (names : List String) (imps : List ℚ) (m : List (String × ℚ)),
      names.Nodup → imps.length = names.length →
      (∀ p ∈ m, p.1 ∉ names) →
      ((names.zip imps).foldl (fun acc p => dictAssign acc p.1 p.2)
          m).map Prod.fst
        = m.map Prod.fst ++ names := by
  intro names
  induction names with
  | nil => intro imps m _ _ _; simp
  | cons k ns ih =>
    intro imps m hnd hlen hfresh
    match imps with
    | [] => simp at hlen
    | v :: vs =>
      have hstep : dictAssign m k v = m ++ [(k, v)] := by
        refine dictAssign_of_not_mem m k v ?_
        intro p hp
        have := hfresh p hp
        simp only [List.mem_cons, not_or] at this
        exact this.1
      have hnd' : ns.Nodup := (List.nodup_cons.mp hnd).2
      have hknotin : k ∉ ns := (List.nodup_cons.mp hnd).1
      have hlen' : vs.length = ns.length := by
        simpa using hlen
      have hfresh' : ∀ p ∈ m ++ [(k, v)], p.1 ∉ ns := by
        intro p hp
        rcases List.mem_append.mp hp with h | h
        · have := hfresh p h
          simp only [List.mem_cons, not_or] at this
          exact this.2
        · simp only [List.mem_singleton] at h
          subst h
          exact hknotin
      calc List.map Prod.fst
              (((k :: ns).zip (v :: vs)).foldl
                (fun acc p => dictAssign acc p.1 p.2) m)
          = List.map Prod.fst
              ((ns.zip vs).foldl (fun acc p => dictAssign acc p.1 p.2)
                (m ++ [(k, v)])) := by
            simp [List.zip_cons_cons, hstep]
        _ = (m ++ [(k, v)]).map Prod.fst ++ ns :=
            ih vs (m ++ [(k, v)]) hnd' hlen' hfresh'
        _ = m.map Prod.fst ++ (k :: ns) := by simp

/-- C10: the 64 names in `UNIFIED_FEATURES` are pairwise distinct, and
consequently for any importance vector of matching length the
`feature_importances` dictionary built in `export_unified_json` has
exactly 64 entries keyed, in order, by the 64 feature names — no
importance value is lost to a key collision. -/
theorem unified_features_nodup_importances :
    UNIFIED_FEATURES.Nodup ∧
    ∀ imps : List ℚ, imps.length = 64 →
      (avg_importances imps UNIFIED_FEATURES).map Prod.fst
          = UNIFIED_FEATURES ∧
      (avg_importances imps UNIFIED_FEATURES).length = 64 := by
  have hnd : UNIFIED_FEATURES.Nodup := by decide
  refine ⟨hnd, ?_⟩
  intro imps hlen
  have hkeys : (avg_importances imps UNIFIED_FEATURES).map Prod.fst
      = UNIFIED_FEATURES := by
    have := foldl_dictAssign_keys UNIFIED_FEATURES imps [] hnd
      (by rw [hlen]; rfl) (by simp)
    simpa [avg_importances] using this
  refine ⟨hkeys, ?_⟩
  have := congrArg List.length hkeys
  simpa using this

/-- Witness for C10 at the concrete all-zero importance vector. -/
theorem unified_features_nodup_importances_witness :
    (List.replicate 64 (0 : ℚ)).length = 64 ∧
    (avg_importances (List.replicate 64 (0 : ℚ))
        UNIFIED_FEATURES).length = 64 :=
  ⟨by simp,
   (unified_features_nodup_importances.2 (List.replicate 64 (0 : ℚ))
     (by simp)).2⟩

/-! ## Calibration table (train_model.py, build_calibration_table) -/

/-- Model of `np.clip(v, lo, hi)`. -/
def npClip (v lo hi : ℚ) : ℚ := min hi (max lo v)

/-- Model of `np.linspace(0.0, 1.0, n)`: `n` evenly spaced points from 0
to 1 inclusive (numpy returns `[0.0]` for `n = 1` and the empty list for
`n = 0`). -/
def linspace01 (n : ℕ) : List ℚ :=
  if n ≤ 1 then List.replicate n 0
  else (List.range n).map (fun i : ℕ => (i : ℚ) / ((n : ℚ) - 1))

/-- Model of `build_calibration_table` from `train_model.py`.  The raw
probability axis is `np.linspace(0.0, 1.0, n_points)`; each raw point is
mapped through the class-1 isotonic calibrator of the calibrated model
and clipped into `[0, 1]` with `np.clip`; when the calibrator cannot be
accessed (the `except` branch of the Python loop) the identity fallback
`y = raw_p` is used instead.  The `rf`, `scaler` and `X` parameters of
the Python function are unused there and omitted here; the calibrator
(present or absent, uniformly over the loop) is the `calibrator`
argument. -/
def build_calibration_table (calibrator : Option (ℚ → ℚ))
    (n_points : ℕ) : List ℚ × List ℚ :=
  let x_raw := linspace01 n_points
  let y_cal := x_raw.map (fun raw_p =>
    match calibrator with
    | some cal => npClip (cal raw_p) 0 1
    | none => raw_p)
  (x_raw, y_cal)

/-- The linspace has the requested number of points. -/
theorem linspace01_length (n : ℕ) : (linspace01 n).length = n := by
  unfold linspace01
  split <;> simp

/-- A constant list is monotone non-decreasing. -/
theorem sorted_replicate_zero (m : ℕ) :
    List.Sorted (· ≤ ·) (List.replicate m (0 : ℚ)) := by
  induction m with
  | zero => simp
  | succ k ih =>
    rw [List.replicate_succ]
    refine List.pairwise_cons.mpr ⟨?_, ih⟩
    intro b hb
    rw [List.eq_of_mem_replicate hb]

/-- The linspace is monotone non-decreasing. -/
theorem linspace01_sorted (n : ℕ) :
    List.Sorted (· ≤ ·) (linspace01 n) := by
  unfold linspace01
  split
  · exact sorted_replicate_zero n
  · rename_i hn
    have hpos : (0 : ℚ) < (n : ℚ) - 1 := by
      have : (2 : ℚ) ≤ (n : ℚ) := by exact_mod_cast Nat.lt_of_not_le hn
      linarith
    refine List.pairwise_map.mpr ?_
    refine (List.pairwise_lt_range n).imp ?_
    intro a b hab
    exact (div_le_div_iff_of_pos_right hpos).mpr (by exact_mod_cast hab.le)

/-- Every linspace point lies in `[0, 1]`. -/
theorem linspace01_mem_bounds (n : ℕ) :
    ∀ x ∈ linspace01 n, 0 ≤ x ∧ x ≤ 1 := by
  intro x hx
  unfold linspace01 at hx
  split at hx
  · rw [List.eq_of_mem_replicate hx]
    norm_num
  · rename_i hn
    have h2 : (2 : ℚ) ≤ (n : ℚ) := by exact_mod_cast Nat.lt_of_not_le hn
    have hpos : (0 : ℚ) < (n : ℚ) - 1 := by linarith
    obtain ⟨i, hi, rfl⟩ := List.mem_map.mp hx
    have hi' : i < n := List.mem_range.mp hi
    constructor
    · exact div_nonneg (by exact_mod_cast Nat.zero_le i) hpos.le
    · rw [div_le_one hpos]
      have : (i : ℚ) + 1 ≤ (n : ℚ) := by exact_mod_cast hi'
      linarith

/-- C5: for every calibrated model (calibrator present or absent) and
every requested number of points `n ≥ 2` (default 200),
`build_calibration_table` returns two lists of equal length `n`; the
`x_values` are monotone non-decreasing with first element 0 and last
element 1, so the table spans `[0, 1]`; and every `y_value` lies in
`[0, 1]` on both the calibrator path and the identity fallback path. -/
theorem build_calibration_table_shape (calibrator : Option (ℚ → ℚ))
    (n : ℕ) (h : 2 ≤ n) :
    (build_calibration_table calibrator n).1.length = n ∧
    (build_calibration_table calibrator n).2.length = n ∧
    List.Sorted (· ≤ ·) (build_calibration_table calibrator n).1 ∧
    (build_calibration_table calibrator n).1.head? = some 0 ∧
    (build_calibration_table calibrator n).1.getLast? = some 1 ∧
    ∀ y ∈ (build_calibration_table calibrator n).2, 0 ≤ y ∧ y ≤ 1 := by
  obtain ⟨m, rfl⟩ : ∃ m, n = m + 2 := ⟨n - 2, by omega⟩
  have hn1 : ¬ m + 2 ≤ 1 := by omega
  have hdenpos : (0 : ℚ) < (m : ℚ) + 1 := by positivity
  simp only [build_calibration_table]
  refine ⟨linspace01_length _, ?_, linspace01_sorted _, ?_, ?_, ?_⟩
  · rw [List.length_map, linspace01_length]
  · simp only [linspace01, if_neg hn1]
    rw [List.range_succ_eq_map]
    simp
  · simp only [linspace01, if_neg hn1]
    rw [List.range_succ, List.map_append]
    simp only [List.map_cons, List.map_nil]
    rw [List.getLast?_concat]
    push_cast
    rw [show ((m : ℚ) + 2) - 1 = (m : ℚ) + 1 by ring,
      div_self (ne_of_gt hdenpos)]
  · intro y hy
    obtain ⟨x, hx, rfl⟩ := List.mem_map.mp hy
    have hxb := linspace01_mem_bounds _ x hx
    match calibrator with
    | some cal =>
      constructor
      · simp only [npClip]
        exact le_min (by norm_num) (le_max_left 0 _)
      · simp only [npClip]
        exact min_le_left 1 _
    | none => exact hxb

/-- Witness for C5 at a concrete calibrator and the default 200 points. -/
theorem build_calibration_table_shape_witness :
    2 ≤ 200 ∧
    ((build_calibration_table (some (fun q => q * q)) 200).1.length = 200 ∧
    (build_calibration_table (some (fun q => q * q)) 200).2.length = 200 ∧
    List.Sorted (· ≤ ·)
      (build_calibration_table (some (fun q => q * q)) 200).1 ∧
    (build_calibration_table (some (fun q => q * q)) 200).1.head?
        = some 0 ∧
    (build_calibration_table (some (fun q => q * q)) 200).1.getLast?
        = some 1 ∧
    ∀ y ∈ (build_calibration_table (some (fun q => q * q)) 200).2,
      0 ≤ y ∧ y ≤ 1) :=
  ⟨by norm_num,
   build_calibration_table_shape (some (fun q => q * q)) 200 (by norm_num)⟩

/-- C6: whenever the underlying isotonic calibrator is a monotone
non-decreasing function of the raw probability, the `y_values` list
returned by `build_calibration_table` is itself monotone non-decreasing
— the interpolation table exported for `CalibrationMapper` preserves the
isotonic guarantee. -/
theorem build_calibration_table_y_monotone (cal : ℚ → ℚ) (n : ℕ)
    (hmono : ∀ a b : ℚ, a ≤ b → cal a ≤ cal b) :
    List.Sorted (· ≤ ·) (build_calibration_table (some cal) n).2 := by
  simp only [build_calibration_table]
  refine List.pairwise_map.mpr ?_
  refine (linspace01_sorted n).imp ?_
  intro a b hab
  simp only [npClip]
  exact min_le_min le_rfl (max_le_max le_rfl (hmono a b hab))

/-- Witness for C6 at the identity calibrator and 200 points. -/
theorem build_calibration_table_y_monotone_witness :
    (∀ a b : ℚ, a ≤ b → (fun q => q) a ≤ (fun q => q) b) ∧
    List.Sorted (· ≤ ·)
      (build_calibration_table (some (fun q => q)) 200).2 :=
  ⟨fun _ _ h => h,
   build_calibration_table_y_monotone (fun q => q) 200 (fun _ _ h => h)⟩

/-! ## JSON model export (train_model.py, export_unified_json) -/

/-- A JSON value, the target of `json.dump` in `export_unified_json`. -/
inductive Json where
  | num : ℚ → Json
  | str : String → Json
  | arr : List Json → Json
  | obj : List (String × Json) → Json

/-- Top-level keys of a JSON object, in order. -/
def Json.keys : Json → List String
  | .obj l => l.map Prod.fst
  | _ => []

/-- Lookup of a key in a JSON object (first match). -/
def Json.lookup (j : Json) (k : String) : Option Json :=
  match j with
  | .obj l => (l.find? (fun p => p.1 == k)).map Prod.snd
  | _ => none

/-- One sklearn decision tree as exposed by `estimator.tree_`: parallel
node arrays, with `value` of shape `(n_nodes, 1, 2)` (class counts, one
output, two classes). -/
structure SkTree where
  feature : List ℤ
  threshold : List ℚ
  children_left : List ℤ
  children_right : List ℤ
  value : List (List (List ℚ))

/-- A trained random forest as consumed by `export_unified_json`:
`rf.estimators_` and `rf.feature_importances_`. -/
structure RandomForest where
  estimators_ : List SkTree
  feature_importances_ : List ℚ

/-- A fitted `StandardScaler`: `scaler.mean_` and `scaler.scale_`. -/
structure Scaler where
  mean_ : List ℚ
  scale_ : List ℚ

/-- Model of `numpy.squeeze(axis=1)` on a `(n, 1, 2)` array: drops the
middle axis, failing (numpy raises) when some row does not have exactly
one entry along it. -/
def squeezeAxis1 : List (List (List ℚ)) → Option (List (List ℚ))
  | [] => some []
  | row :: rest =>
    match row with
    | [x] => (squeezeAxis1 rest).map (fun sq => x :: sq)
    | _ => none

/-- The per-tree dictionary built inside the `for estimator in
rf.estimators_` loop of `export_unified_json`: the four node arrays
copied with `.tolist()` and `value` squeezed along axis 1. -/
def treeJson (t : SkTree) : Option Json :=
  (squeezeAxis1 t.value).map (fun sq => Json.obj
    [("feature", Json.arr (t.feature.map (fun i : ℤ => Json.num (i : ℚ)))),
     ("threshold", Json.arr (t.threshold.map Json.num)),
     ("children_left",
       Json.arr (t.children_left.map (fun i : ℤ => Json.num (i : ℚ)))),
     ("children_right",
       Json.arr (t.children_right.map (fun i : ℤ => Json.num (i : ℚ)))),
     ("value", Json.arr (sq.map (fun row => Json.arr (row.map Json.num))))])

/-- The `trees` list built by the `for estimator in rf.estimators_` loop
of `export_unified_json`, one per-tree dictionary appended per
estimator; `none` when a squeeze fails. -/
def buildTrees : List SkTree → Option (List Json)
  | [] => some []
  | t :: rest =>
    match treeJson t with
    | some j => (buildTrees rest).map (fun js => j :: js)
    | none => none

/-- The `model_data` object written by `export_unified_json` in
`train_model.py`: the nine top-level fields in source order, with the
`calibration` sub-object (method, x_values, y_values) and the list of
per-tree dictionaries. -/
def export_unified_json (rf : RandomForest) (scaler : Scaler)
    (feature_names : List String) (cal_x cal_y : List ℚ) : Option Json :=
  (buildTrees rf.estimators_).map (fun trees => Json.obj
    [("model_type", Json.str "unified_random_forest"),
     ("n_estimators", Json.num rf.estimators_.length),
     ("n_features", Json.num feature_names.length),
     ("feature_names", Json.arr (feature_names.map Json.str)),
     ("feature_importances", Json.obj
       ((avg_importances rf.feature_importances_ feature_names).map
         (fun p => (p.1, Json.num p.2)))),
     ("scaler_mean", Json.arr (scaler.mean_.map Json.num)),
     ("scaler_scale", Json.arr (scaler.scale_.map Json.num)),
     ("calibration", Json.obj
       [("method", Json.str "isotonic"),
        ("x_values", Json.arr (cal_x.map Json.num)),
        ("y_values", Json.arr (cal_y.map Json.num))]),
     ("trees", Json.arr trees)])

/-- Squeezing succeeds exactly on well-shaped sklearn value arrays, and
then preserves the node count and the per-node class-count rows. -/
theorem squeezeAxis1_of_rows :
    ∀ v : List (List (List ℚ)), (∀ row ∈ v, row.length = 1) →
      ∃ sq, squeezeAxis1 v = some sq ∧ sq.length = v.length ∧
        ∀ r ∈ sq, [r] ∈ v := by
  intro v
  induction v with
  | nil => intro _; exact ⟨[], rfl, rfl, by simp⟩
  | cons row rest ih =>
    intro h
    obtain ⟨x, rfl⟩ : ∃ x, row = [x] := by
      have h1 : row.length = 1 := h row (by simp)
      match row, h1 with
      | [x], _ => exact ⟨x, rfl⟩
    obtain ⟨sq, hsq, hlen, hmem⟩ := ih (fun r hr => h r (by simp [hr]))
    refine ⟨x :: sq, ?_, by simp [hlen], ?_⟩
    · rw [squeezeAxis1, hsq]
      rfl
    · intro r hr
      rcases List.mem_cons.mp hr with h | h
      · subst h; simp
      · simp [hmem r h]

/-- On a well-shaped tree, `treeJson` produces a per-tree object with
exactly the five per-tree keys, in source order. -/
theorem treeJson_of_rows (t : SkTree) (h : ∀ row ∈ t.value, row.length = 1) :
    ∃ jt, treeJson t = some jt ∧ Json.keys jt =
      ["feature", "threshold", "children_left", "children_right",
       "value"] := by
  obtain ⟨sq, hsq, -, -⟩ := squeezeAxis1_of_rows t.value h
  rw [treeJson, hsq]
  exact ⟨_, rfl, rfl⟩

/-- All per-tree objects built from well-shaped trees carry exactly the
five per-tree keys, in source order. -/
theorem buildTrees_of_rows :
    ∀ ts : List SkTree, (∀ t ∈ ts, ∀ row ∈ t.value, row.length = 1) →
      ∃ js, buildTrees ts = some js ∧ js.length = ts.length ∧
        ∀ j ∈ js, Json.keys j =
          ["feature", "threshold", "children_left", "children_right",
           "value"] := by
  intro ts
  induction ts with
  | nil => intro _; exact ⟨[], rfl, rfl, by simp⟩
  | cons t rest ih =>
    intro h
    obtain ⟨jt, htj, hjtkeys⟩ := treeJson_of_rows t (h t (by simp))
    obtain ⟨js, hjs, hlen, hkeys⟩ := ih (fun u hu => h u (by simp [hu]))
    refine ⟨jt :: js, ?_, by simp [hlen], ?_⟩
    · rw [buildTrees, htj, hjs]
      rfl
    · intro j hj
      rcases List.mem_cons.mp hj with h | h
      · subst h; exact hjtkeys
      · exact hkeys j h

/-- C4: for every trained forest with well-shaped sklearn value arrays, a
64-feature scaler, a 64-name feature list, and calibration lists,
`export_unified_json` produces a JSON object whose top-level keys are
exactly model_type, n_estimators, n_features, feature_names,
feature_importances, scaler_mean, scaler_scale, calibration, trees; whose
calibration sub-object is method = "isotonic" with the given x_values and
y_values; whose n_features equals the length of feature_names (= 64,
matching the scaler_mean and scaler_scale lengths); and each of whose
trees has exactly the keys feature, threshold, children_left,
children_right, value. -/
theorem export_unified_json_fields (rf : RandomForest) (scaler : Scaler)
    (feature_names : List String) (cal_x cal_y : List ℚ)
    (hshape : ∀ t ∈ rf.estimators_, ∀ row ∈ t.value, row.length = 1)
    (hn : feature_names.length = 64)
    (hm : scaler.mean_.length = 64) (hs : scaler.scale_.length = 64) :
    ∃ j, export_unified_json rf scaler feature_names cal_x cal_y = some j ∧
      Json.keys j =
        ["model_type", "n_estimators", "n_features", "feature_names",
         "feature_importances", "scaler_mean", "scaler_scale",
         "calibration", "trees"] ∧
      j.lookup "calibration" = some (Json.obj
        [("method", Json.str "isotonic"),
         ("x_values", Json.arr (cal_x.map Json.num)),
         ("y_values", Json.arr (cal_y.map Json.num))]) ∧
      j.lookup "n_features" = some (Json.num feature_names.length) ∧
      j.lookup "n_features" = some (Json.num 64) ∧
      (∃ a, j.lookup "scaler_mean" = some (Json.arr a) ∧ a.length = 64) ∧
      (∃ a, j.lookup "scaler_scale" = some (Json.arr a) ∧ a.length = 64) ∧
      ∃ ts, j.lookup "trees" = some (Json.arr ts) ∧
        ∀ jt ∈ ts, Json.keys jt =
          ["feature", "threshold", "children_left", "children_right",
           "value"] := by
  obtain ⟨js, hjs, -, hkeys⟩ := buildTrees_of_rows rf.estimators_ hshape
  have hexp : export_unified_json rf scaler feature_names cal_x cal_y
      = some (Json.obj
        [("model_type", Json.str "unified_random_forest"),
         ("n_estimators", Json.num rf.estimators_.length),
         ("n_features", Json.num feature_names.length),
         ("feature_names", Json.arr (feature_names.map Json.str)),
         ("feature_importances", Json.obj
           ((avg_importances rf.feature_importances_ feature_names).map
             (fun p => (p.1, Json.num p.2)))),
         ("scaler_mean", Json.arr (scaler.mean_.map Json.num)),
         ("scaler_scale", Json.arr (scaler.scale_.map Json.num)),
         ("calibration", Json.obj
           [("method", Json.str "isotonic"),
            ("x_values", Json.arr (cal_x.map Json.num)),
            ("y_values", Json.arr (cal_y.map Json.num))]),
         ("trees", Json.arr js)]) := by
    rw [export_unified_json, hjs]
    rfl
  refine ⟨_, hexp, rfl, rfl, rfl, ?_, ?_, ?_, ?_⟩
  · have h64 : ((feature_names.length : ℚ)) = (64 : ℚ) := by
      rw [hn]; norm_num
    rw [h64]
    rfl
  · exact ⟨scaler.mean_.map Json.num, rfl, by rw [List.length_map, hm]⟩
  · exact ⟨scaler.scale_.map Json.num, rfl, by rw [List.length_map, hs]⟩
  · exact ⟨js, rfl, hkeys⟩

/-- Concrete single-node-pair tree fixture for witnesses (a root split
with two leaf children folded into one-node arrays would not be a valid
sklearn tree, but the export code only copies arrays, so a one-node leaf
tree suffices). -/
def fixtureTree : SkTree :=
  ⟨[-2], [1/2], [-1], [-1], [[[1, 10]]]⟩

/-- Concrete forest fixture for witnesses. -/
def fixtureForest : RandomForest :=
  ⟨[fixtureTree], List.replicate 64 0⟩

/-- Concrete scaler fixture for witnesses. -/
def fixtureScaler : Scaler :=
  ⟨List.replicate 64 0, List.replicate 64 1⟩

/-- Witness for C4 at the concrete fixture forest, the 64-name unified
feature list, identity-table calibration lists. -/
theorem export_unified_json_fields_witness :
    (∀ t ∈ fixtureForest.estimators_, ∀ row ∈ t.value, row.length = 1) ∧
    UNIFIED_FEATURES.length = 64 ∧
    fixtureScaler.mean_.length = 64 ∧
    fixtureScaler.scale_.length = 64 ∧
    ∃ j, export_unified_json fixtureForest fixtureScaler UNIFIED_FEATURES
        [0, 1] [0, 1] = some j ∧
      Json.keys j =
        ["model_type", "n_estimators", "n_features", "feature_names",
         "feature_importances", "scaler_mean", "scaler_scale",
         "calibration", "trees"] ∧
      j.lookup "calibration" = some (Json.obj
        [("method", Json.str "isotonic"),
         ("x_values", Json.arr (List.map Json.num [0, 1])),
         ("y_values", Json.arr (List.map Json.num [0, 1]))]) ∧
      j.lookup "n_features" = some (Json.num UNIFIED_FEATURES.length) ∧
      j.lookup "n_features" = some (Json.num 64) ∧
      (∃ a, j.lookup "scaler_mean" = some (Json.arr a) ∧ a.length = 64) ∧
      (∃ a, j.lookup "scaler_scale" = some (Json.arr a) ∧ a.length = 64) ∧
      ∃ ts, j.lookup "trees" = some (Json.arr ts) ∧
        ∀ jt ∈ ts, Json.keys jt =
          ["feature", "threshold", "children_left", "children_right",
           "value"] :=
  ⟨by decide, rfl, by simp [fixtureScaler], by simp [fixtureScaler],
   export_unified_json_fields fixtureForest fixtureScaler UNIFIED_FEATURES
     [0, 1] [0, 1] (by decide) rfl (by simp [fixtureScaler])
     (by simp [fixtureScaler])⟩

/-- C7: parallel-array tree invariant of the exported artifact — for a
tree whose sklearn node arrays all have the node count `n` and whose
value array has shape `(n, 1, 2)`, the per-tree object emitted by
`export_unified_json` has its five lists `feature`, `threshold`,
`children_left`, `children_right`, `value` all of length `n`, and every
element of `value` is a pair of exactly 2 class-count components (the
`(n, 1, 2)` sklearn array is squeezed to `(n, 2)`). -/
theorem tree_export_parallel_arrays (t : SkTree) (n : ℕ)
    (hf : t.feature.length = n) (hth : t.threshold.length = n)
    (hl : t.children_left.length = n) (hr : t.children_right.length = n)
    (hv : t.value.length = n)
    (hrows : ∀ row ∈ t.value, row.length = 1)
    (hpair : ∀ row ∈ t.value, ∀ r ∈ row, r.length = 2) :
    ∃ jt, treeJson t = some jt ∧
      (∀ k ∈ (["feature", "threshold", "children_left", "children_right",
          "value"] : List String),
        ∃ a, jt.lookup k = some (Json.arr a) ∧ a.length = n) ∧
      ∃ va, jt.lookup "value" = some (Json.arr va) ∧
        ∀ e ∈ va, ∃ r : List ℚ,
          e = Json.arr (r.map Json.num) ∧ r.length = 2 := by
  obtain ⟨sq, hsq, hsqlen, hsqmem⟩ := squeezeAxis1_of_rows t.value hrows
  rw [treeJson, hsq]
  refine ⟨_, rfl, ?_, ?_⟩
  · intro k hk
    simp only [List.mem_cons, List.not_mem_nil, or_false] at hk
    rcases hk with rfl | rfl | rfl | rfl | rfl
    · exact ⟨_, rfl, by rw [List.length_map, hf]⟩
    · exact ⟨_, rfl, by rw [List.length_map, hth]⟩
    · exact ⟨_, rfl, by rw [List.length_map, hl]⟩
    · exact ⟨_, rfl, by rw [List.length_map, hr]⟩
    · exact ⟨_, rfl, by rw [List.length_map, hsqlen, hv]⟩
  · refine ⟨sq.map (fun row : List ℚ => Json.arr (row.map Json.num)),
      rfl, ?_⟩
    intro e he
    obtain ⟨row, hrow, rfl⟩ := List.mem_map.mp he
    exact ⟨row, rfl, hpair [row] (hsqmem row hrow) row (by simp)⟩

/-- Witness for C7 at the concrete one-node fixture tree. -/
theorem tree_export_parallel_arrays_witness :
    (fixtureTree.feature.length = 1 ∧
     fixtureTree.threshold.length = 1 ∧
     fixtureTree.children_left.length = 1 ∧
     fixtureTree.children_right.length = 1 ∧
     fixtureTree.value.length = 1 ∧
     (∀ row ∈ fixtureTree.value, row.length = 1) ∧
     (∀ row ∈ fixtureTree.value, ∀ r ∈ row, r.length = 2)) ∧
    ∃ jt, treeJson fixtureTree = some jt ∧
      (∀ k ∈ (["feature", "threshold", "children_left", "children_right",
          "value"] : List String),
        ∃ a, jt.lookup k = some (Json.arr a) ∧ a.length = 1) ∧
      ∃ va, jt.lookup "value" = some (Json.arr va) ∧
        ∀ e ∈ va, ∃ r : List ℚ,
          e = Json.arr (r.map Json.num) ∧ r.length = 2 :=
  ⟨⟨rfl, rfl, rfl, rfl, rfl, by decide, by decide⟩,
   tree_export_parallel_arrays fixtureTree 1 rfl rfl rfl rfl rfl
     (by decide) (by decide)⟩

/-! ## Post-model rule engine (modelled from the spec)

The browser-side `PostModelRuleEngine` is not among the repository source
files (only the training script and documentation generators are); the
following definitions are modelled from the specification text of §4.5
and §3. -/

/-- Modelled from the spec: the `TrustContext` record of §3 — effective
trust state for one sender domain, derived from the built-in trusted
list, the user trusted and blocked lists, and the free-email provider
set. -/
structure TrustContext where
  isBuiltinTrusted : Bool
  isUserTrusted : Bool
  isUserBlocked : Bool
  isFreeEmailProvider : Bool

/-- Modelled from the spec: the feature snapshot consulted by
`PostModelRuleEngine.adjust` (§4.5) — the four BEC signals
(financial-request, authority-impersonation, phone-callback,
reply-to-mismatch), the attachment-signal flag, and the newsletter
heuristics flag (unsubscribe link, view-in-browser marker, footer
pattern). -/
structure FeatureSnapshot where
  financialRequestScore : ℚ
  authorityImpersonationScore : ℚ
  phoneCallbackPattern : ℚ
  replyToMismatch : ℚ
  attachmentSignal : Bool
  newsletterSignals : Bool

/-- Modelled from the spec: the configured thresholds above which each
BEC signal counts as strong; §4.5 leaves the numeric values unspecified,
so they are parameters. -/
structure BecThresholds where
  financial : ℚ
  authority : ℚ
  phone : ℚ
  replyTo : ℚ

/-- Modelled from the spec: the number of strong BEC signals in a
snapshot — a signal fires (is strong) when it exceeds its configured
threshold. -/
def strongSignalCount (th : BecThresholds) (s : FeatureSnapshot) : ℕ :=
  (if th.financial < s.financialRequestScore then 1 else 0) +
  (if th.authority < s.authorityImpersonationScore then 1 else 0) +
  (if th.phone < s.phoneCallbackPattern then 1 else 0) +
  (if th.replyTo < s.replyToMismatch then 1 else 0)

/-- Modelled from the spec: the BEC boost floor of §4.5 — 70 for a
single strong signal, 80 for two or more combined, no floor
otherwise. -/
def becBoostFloor (th : BecThresholds) (s : FeatureSnapshot) : ℤ :=
  if 2 ≤ strongSignalCount th s then 80
  else if strongSignalCount th s = 1 then 70
  else 0

/-- Modelled from the spec: effective trust (§4.5),
`isUserBlocked ? not-trusted : (isUserTrusted ? trusted :
isBuiltinTrusted)` — priority blocked > user-trusted > built-in. -/
def effectiveTrusted (t : TrustContext) : Bool :=
  if t.isUserBlocked then false
  else if t.isUserTrusted then true
  else t.isBuiltinTrusted

/-- Modelled from the spec: `PostModelRuleEngine.adjust` (§4.5).
`baseScore = round(100 * calibratedProbability)`; the BEC boost raises
the floor to 70/80; trust dampening caps the score at 30 when the domain
is effectively trusted, is not a free-email provider, and no BEC or
attachment signal fired; newsletter dampening caps the score at 45 when
the domain is not effectively trusted and the newsletter heuristics are
present; the result is clamped into `[0, 100]`.  The spec leaves the
boost-versus-cap precedence open (§9); the floor is applied before the
caps here, a choice none of the claim theorems below depends on, because
trust dampening is only eligible when no BEC signal fired (so the floor
is 0 on every dampened path). -/
def adjust (th : BecThresholds) (p : ℚ) (s : FeatureSnapshot)
    (t : TrustContext) : ℤ :=
  let base : ℤ := round ((100 : ℚ) * p)
  let boosted : ℤ := max base (becBoostFloor th s)
  let trustDamp : Bool :=
    effectiveTrusted t && !t.isFreeEmailProvider &&
    (strongSignalCount th s == 0) && !s.attachmentSignal
  let afterTrust : ℤ := if trustDamp then min boosted 30 else boosted
  let newsDamp : Bool := !effectiveTrusted t && s.newsletterSignals
  let afterNews : ℤ := if newsDamp then min afterTrust 45 else afterTrust
  min 100 (max 0 afterNews)

/-- C1: trust-dampening cap — for every calibrated probability, feature
snapshot, threshold configuration, and trust context whose sender domain
is builtin-trusted and not overridden by a user block, with
`isFreeEmailProvider` false and no BEC or attachment signal fired, the
final score returned by `PostModelRuleEngine.adjust` is at most 30
regardless of how high the calibrated probability is, and calibrated
probability 0.95 yields a final score of exactly 30 (not 95). -/
theorem trust_dampening_cap (th : BecThresholds) (p : ℚ)
    (s : FeatureSnapshot) (t : TrustContext)
    (hB : t.isBuiltinTrusted = true) (hNB : t.isUserBlocked = false)
    (hF : t.isFreeEmailProvider = false)
    (hBec : strongSignalCount th s = 0)
    (hAtt : s.attachmentSignal = false) :
    adjust th p s t ≤ 30 ∧ adjust th (95 / 100) s t = 30 := by
  have hEff : effectiveTrusted t = true := by
    simp [effectiveTrusted, hNB, hB]
  have hFloor : becBoostFloor th s = 0 := by
    simp [becBoostFloor, hBec]
  have h95 : round ((100 : ℚ) * (95 / 100)) = 95 := by
    norm_num [round_eq]
  constructor
  · simp only [adjust, hEff, hF, hBec, hAtt, hFloor]
    norm_num
  · simp only [adjust, hEff, hF, hBec, hAtt, hFloor, h95]
    norm_num

/-- Witness for C1 at a concrete trusted corporate context, empty
snapshot, thresholds (2, 2, 0, 0), and calibrated probability 0.95. -/
theorem trust_dampening_cap_witness :
    ((⟨true, false, false, false⟩ : TrustContext).isBuiltinTrusted
        = true ∧
     (⟨true, false, false, false⟩ : TrustContext).isUserBlocked = false ∧
     (⟨true, false, false, false⟩ : TrustContext).isFreeEmailProvider
        = false ∧
     strongSignalCount ⟨2, 2, 0, 0⟩ ⟨0, 0, 0, 0, false, false⟩ = 0 ∧
     (⟨0, 0, 0, 0, false, false⟩ : FeatureSnapshot).attachmentSignal
        = false) ∧
    adjust ⟨2, 2, 0, 0⟩ (95 / 100) ⟨0, 0, 0, 0, false, false⟩
        ⟨true, false, false, false⟩ ≤ 30 ∧
    adjust ⟨2, 2, 0, 0⟩ (95 / 100) ⟨0, 0, 0, 0, false, false⟩
        ⟨true, false, false, false⟩ = 30 :=
  ⟨⟨rfl, rfl, rfl, by norm_num [strongSignalCount], rfl⟩,
   trust_dampening_cap ⟨2, 2, 0, 0⟩ (95 / 100)
     ⟨0, 0, 0, 0, false, false⟩ ⟨true, false, false, false⟩
     rfl rfl rfl (by norm_num [strongSignalCount]) rfl⟩

/-- Counterexample to C2 as stated: with identical snapshots (newsletter
heuristics present, no BEC or attachment signals) and identical
calibrated probability 0.6, the run whose sender domain is a
builtin-trusted free-email provider (gmail.com) scores 60, while the run
from an arbitrary untrusted domain is newsletter-capped to 45 — the two
final scores differ, so the unconditional two-run equality fails. -/
theorem free_email_noninterference_cex :
    adjust ⟨2, 2, 0, 0⟩ (60 / 100) ⟨0, 0, 0, 0, false, true⟩
        ⟨true, false, false, true⟩ ≠
    adjust ⟨2, 2, 0, 0⟩ (60 / 100) ⟨0, 0, 0, 0, false, true⟩
        ⟨false, false, false, false⟩ := by
  have h60 : round ((100 : ℚ) * (60 / 100)) = 60 := by
    norm_num [round_eq]
  simp only [adjust, effectiveTrusted, becBoostFloor, strongSignalCount,
    h60]
  norm_num

/-- C2 (amended): for every pair of scans with identical feature
snapshots in which the newsletter heuristics did not fire and identical
calibrated probabilities, where one run's sender domain is a free email
provider such as gmail.com (whatever trust lists it appears on) and the
other run's sender domain is an arbitrary effectively-untrusted domain,
`PostModelRuleEngine.adjust` returns the same final score in both runs —
trust dampening never applies to a free-email-provider domain.  (With
newsletter heuristics present the runs may differ, because the
newsletter cap applies only to the non-trusted run; the counterexample
forces exactly this exclusion.) -/
theorem free_email_no_dampening (th : BecThresholds) (p : ℚ)
    (s : FeatureSnapshot) (tG tU : TrustContext)
    (hFree : tG.isFreeEmailProvider = true)
    (hUn : effectiveTrusted tU = false)
    (hNews : s.newsletterSignals = false) :
    adjust th p s tG = adjust th p s tU := by
  simp [adjust, hFree, hUn, hNews]

/-- Witness for the amended C2 at a concrete trusted gmail-style context
versus a concrete untrusted context, with a newsletter-free snapshot. -/
theorem free_email_no_dampening_witness :
    ((⟨true, false, false, true⟩ : TrustContext).isFreeEmailProvider
        = true ∧
     effectiveTrusted ⟨false, false, false, false⟩ = false ∧
     (⟨0, 0, 0, 0, false, false⟩ : FeatureSnapshot).newsletterSignals
        = false) ∧
    adjust ⟨2, 2, 0, 0⟩ (1 / 2) ⟨0, 0, 0, 0, false, false⟩
        ⟨true, false, false, true⟩ =
    adjust ⟨2, 2, 0, 0⟩ (1 / 2) ⟨0, 0, 0, 0, false, false⟩
        ⟨false, false, false, false⟩ :=
  ⟨⟨rfl, rfl, rfl⟩,
   free_email_no_dampening ⟨2, 2, 0, 0⟩ (1 / 2)
     ⟨0, 0, 0, 0, false, false⟩ ⟨true, false, false, true⟩
     ⟨false, false, false, false⟩ rfl rfl rfl⟩

/-! ## Risk tiers and DNS cache TTL as emitted by the documentation
generators -/

/-- The four fish-classification labels of the `fish` list in
`gen_risk_scoring_pipeline` (generate_framework_assets.py), verbatim;
the presentation colour and x-position entries of the tuples are
omitted. -/
def assetsFishLabels : List String :=
  ["0-49: Friendly Fish\nLow Risk",
   "50-75: Suspicious Fish\nMedium Risk",
   "76-89: Phishy Puffer\nHigh Risk",
   "90-100: Mega Phish Shark\nDangerous"]

/-- The risk-level sentence emitted in section 4 of `build_pdf`
(generate_architecture_pdf.py), verbatim (Python adjacent string
literals concatenated). -/
def pdfRiskSentence : String :=
  "The resulting score maps to four risk levels displayed as themed fish: Friendly Fish (0-49, Low), Suspicious Fish (50-75, Medium), Phishy Pufferfish (76-89, High), and Mega Phish Shark (90-100, Dangerous). The fish type, score, human-readable reasons, and timestamp are persisted to chrome.storage.local and displayed in the popup fish tank."

/-- Whether `pat` occurs as a contiguous substring of `s`, over character
lists. -/
def hasSubstr : List Char → List Char → Bool
  | [], pat => pat.isEmpty
  | c :: t, pat => pat.isPrefixOf (c :: t) || hasSubstr t pat

/-- Numeric value of a non-empty decimal digit string. -/
def natOfDigits : List Char → Option ℕ
  | [] => none
  | cs => cs.foldl (fun acc c =>
      match acc with
      | none => none
      | some n =>
        if c.isDigit then some (n * 10 + (c.toNat - 48)) else none)
      (some 0)

/-- The inclusive score band written at the front of a fish label such as
"0-49: ...": the two numbers around the dash, before the colon. -/
def bandOfLabel (s : String) : Option (ℕ × ℕ) :=
  match (s.data.takeWhile (fun c => c != ':')).splitOn '-' with
  | [a, b] =>
    match natOfDigits a, natOfDigits b with
    | some lo, some hi => some (lo, hi)
    | _, _ => none
  | _ => none

/-- The four score bands 0-49, 50-75, 76-89, 90-100 (Low, Medium, High,
Dangerous) reported by the documentation generators. -/
def riskBands : List (ℕ × ℕ) := [(0, 49), (50, 75), (76, 89), (90, 100)]

set_option maxRecDepth 8192

/-- C8: risk-tier partition — every integer score in 0..100 falls in
exactly one of the four bands 0-49 (Low), 50-75 (Medium), 76-89 (High),
90-100 (Dangerous), so the bands are exhaustive over 0..100 and pairwise
disjoint; and these are the same four bands emitted by both
documentation generators (the fish labels of the risk-scoring-pipeline
diagram and the risk-level sentence of the architecture PDF). -/
theorem risk_tier_partition :
    (∀ s : ℕ, s < 101 →
      riskBands.countP (fun b => b.1 ≤ s && s ≤ b.2) = 1) ∧
    assetsFishLabels.map bandOfLabel = riskBands.map some ∧
    hasSubstr pdfRiskSentence.data "(0-49, Low)".data = true ∧
    hasSubstr pdfRiskSentence.data "(50-75, Medium)".data = true ∧
    hasSubstr pdfRiskSentence.data "(76-89, High)".data = true ∧
    hasSubstr pdfRiskSentence.data "(90-100, Dangerous)".data = true := by
  decide

/-- Witness for C8 at the concrete score 50 (Medium band only). -/
theorem risk_tier_partition_witness :
    50 < 101 ∧
    riskBands.countP (fun b => b.1 ≤ 50 && 50 ≤ b.2) = 1 :=
  ⟨by decide, risk_tier_partition.1 50 (by decide)⟩

/-- The attribute strings of the DnsChecker box in `gen_class_diagram`
(generate_framework_assets.py, `dns_attrs`), verbatim. -/
def dnsCheckerAttrs : List String :=
  ["cache: Map<string, Object>", "CACHE_TTL: 5min", "TIMEOUT: 4s"]

/-- The Tier 2 DNS-validation paragraph emitted by `build_pdf` in
generate_architecture_pdf.py, verbatim (adjacent string literals
concatenated; apostrophes written as escapes). -/
def archPdfTier2Text : String :=
  "If Enhanced Scanning is toggled on (the default), GoPhishFree queries Cloudflare\x27s DNS-over-HTTPS resolver (with Google DNS as a fallback) for the sender\x27s domain and every linked domain. Four DNS features are derived: whether the domain resolves at all, whether it has MX records, whether the A-record returns multiple IPs (a sign of legitimate load-balanced infrastructure), and whether the domain label is a random string based on Shannon entropy analysis. DNS results are cached with a 10-minute TTL to minimize latency on subsequent scans."

/-- The Tier 2 DNS-validation paragraph emitted by the PDF section of
generate_framework_assets.py, verbatim (adjacent string literals
concatenated; apostrophes written as escapes). -/
def frameworkPdfTier2Text : String :=
  "If Enhanced Scanning is toggled on (the default), GoPhishFree queries Cloudflare\x27s DNS-over-HTTPS resolver (with Google DNS as a fallback) for the sender\x27s domain and every linked domain. Five DNS features are derived: whether the domain resolves, MX record count, A record count, whether the domain label is a random string based on Shannon entropy analysis, and whether MX records are present. Results are cached with a 10-minute TTL. The dns_ran context flag is set to 1 when DNS features are populated."

/-- C9: DNS cache TTL inconsistency — the generated class diagram states
the DnsChecker cache TTL as the constant "CACHE_TTL: 5min" while the
narrative architecture documents generated by both PDF builders state a
10-minute TTL; the diagram never mentions a 10-minute value and the
narratives never mention 5min, so the generated outputs disagree (5
versus 10 minutes). -/
theorem dns_ttl_inconsistency :
    "CACHE_TTL: 5min" ∈ dnsCheckerAttrs ∧
    hasSubstr archPdfTier2Text.data "10-minute TTL".data = true ∧
    hasSubstr frameworkPdfTier2Text.data "10-minute TTL".data = true ∧
    hasSubstr archPdfTier2Text.data "5min".data = false ∧
    hasSubstr frameworkPdfTier2Text.data "5min".data = false ∧
    (∀ a ∈ dnsCheckerAttrs, hasSubstr a.data "10-minute".data = false) := by
  decide
